import Mathlib

/-!
Shallow embedding of the BOM_RAG retrieval-augmented query pipeline
(`src/rag_pipeline.py`, `src/data_processor.py`).

External collaborators (the sentence-transformer embedder, the ChromaDB
collection, the OpenAI chat service, LangChain's text splitter) are modelled
as opaque function parameters; everything the repository itself computes is
translated directly from the Python source.  Python floats are modelled as
rationals; Python dicts that cross the query API are modelled as ordered
association lists so that the exact key set is observable.
-/

namespace BomRag

/-- Round-half-to-even on rationals, the idealized model of Python's
built-in `round` applied to a real value. -/
def roundHalfEven (q : ℚ) : ℤ :=
  if q - (⌊q⌋ : ℚ) < 1/2 then ⌊q⌋
  else if 1/2 < q - (⌊q⌋ : ℚ) then ⌊q⌋ + 1
  else if ⌊q⌋ % 2 = 0 then ⌊q⌋ else ⌊q⌋ + 1

/-- Python's `round(x, 2)`: round half to even at two decimal places. -/
def pyRound2 (q : ℚ) : ℚ := ((roundHalfEven (100 * q) : ℤ) : ℚ) / 100

/-- Mean of a list of rationals (as computed by
`sum(distances) / len(distances)` in the source). -/
def listMean (l : List ℚ) : ℚ := l.sum / (l.length : ℚ)

/-- The function `clamp(x, lo, hi)` as the spec writes it. -/
def clampQ (x lo hi : ℚ) : ℚ := max lo (min hi x)

/-- Model of `RAGPipeline._calculate_confidence` from `src/rag_pipeline.py`:
empty list gives `0.0`, otherwise `round(max(0.0, min(1.0, 1.0 - avg)), 2)`
where `avg = sum(distances)/len(distances)`. -/
def calculate_confidence (distances : List ℚ) : ℚ :=
  if distances.isEmpty then 0
  else
    let avg_distance := distances.sum / (distances.length : ℚ)
    pyRound2 (max 0 (min 1 (1 - avg_distance)))

/-- Substring test on character lists: does `pat` occur contiguously? -/
def charListHasSub (pat : List Char) : List Char → Bool
  | [] => pat.isEmpty
  | c :: t => pat.isPrefixOf (c :: t) || charListHasSub pat t

/-- Python's `pat in s` on strings: contiguous substring containment. -/
def strContains (s pat : String) : Bool := charListHasSub pat.data s.data

/-- Python's `str.lower()`: character-wise lowercasing. -/
def strToLower (s : String) : String := String.mk (s.data.map Char.toLower)

/-- Python's `str.strip()`: drop leading and trailing whitespace. -/
def strTrim (s : String) : String :=
  String.mk (((s.data.dropWhile Char.isWhitespace).reverse.dropWhile
    Char.isWhitespace).reverse)

/-- Model of `TextChunker._extract_loan_type_from_chunk` from `src/data_processor.py`:
the if/elif keyword chain over the lowercased chunk. -/
def extract_loan_type_from_chunk (chunk : String) : String :=
  let chunk_lower := strToLower chunk
  if strContains chunk_lower "home loan" || strContains chunk_lower "housing loan" then
    "Home Loan"
  else if strContains chunk_lower "car loan" || strContains chunk_lower "vehicle loan" then
    "Vehicle Loan"
  else if strContains chunk_lower "personal loan" then "Personal Loan"
  else if strContains chunk_lower "education loan" then "Education Loan"
  else if strContains chunk_lower "gold loan" then "Gold Loan"
  else if strContains chunk_lower "agriculture" || strContains chunk_lower "kisan" then
    "Agriculture Loan"
  else if strContains chunk_lower "msme" || strContains chunk_lower "business" then
    "MSME Loan"
  else if strContains chunk_lower "interest rate" then "Interest Rates"
  else "General"

/-- The fixed vocabulary of the label heuristic as an ordered rule list
(spec-side presentation: keywords of a rule, then its label). -/
def labelRules : List (List String × String) :=
  [(["home loan", "housing loan"], "Home Loan"),
   (["car loan", "vehicle loan"], "Vehicle Loan"),
   (["personal loan"], "Personal Loan"),
   (["education loan"], "Education Loan"),
   (["gold loan"], "Gold Loan"),
   (["agriculture", "kisan"], "Agriculture Loan"),
   (["msme", "business"], "MSME Loan"),
   (["interest rate"], "Interest Rates")]

/-- First-match-wins evaluation of an ordered keyword rule list over an
already-lowercased text; no match yields "General". -/
def firstLabel (t : String) : List (List String × String) → String
  | [] => "General"
  | (kws, lab) :: rest =>
    if kws.any (fun kw => strContains t kw) then lab else firstLabel t rest

/-- Fuelled little-endian base-10 digit extraction (kernel-reducible). -/
def decDigitsAux : ℕ → ℕ → List ℕ
  | _, 0 => []
  | 0, _ + 1 => []
  | fuel + 1, n + 1 => (n + 1) % 10 :: decDigitsAux fuel ((n + 1) / 10)

/-- Decimal digits of `n`, little-endian (model of Python's decimal
rendering of a nonnegative int). -/
def decDigits (n : ℕ) : List ℕ := decDigitsAux n n

/-- Digits zero-padded (on the most-significant side) to width 4,
little-endian: model of the `04d` format width. -/
def padDigits (n : ℕ) : List ℕ :=
  decDigits n ++ List.replicate (4 - (decDigits n).length) 0

/-- Python's `f"chunk_{i:04d}"` from `TextChunker.chunk_text`. -/
def chunkId (n : ℕ) : String :=
  "chunk_" ++ String.mk ((padDigits n).reverse.map Nat.digitChar)

/-- One chunk record as built by `TextChunker.chunk_text`. -/
structure Chunk where
  chunk_id : String
  text : String
  loan_type : String
  chunk_index : ℕ
  total_chunks : ℕ
  deriving DecidableEq

/-- Model of `TextChunker.chunk_text` from `src/data_processor.py`.  The LangChain
splitter is an external collaborator, passed in as `split_text`; the
function numbers the returned pieces and attaches metadata. -/
def TextChunker.chunk_text (split_text : String → List String) (text : String) :
    List Chunk :=
  let chunks := split_text text
  chunks.enum.map (fun p =>
    { chunk_id := chunkId p.1
      text := p.2
      loan_type := extract_loan_type_from_chunk p.2
      chunk_index := p.1
      total_chunks := chunks.length })

/-- Metadata stored per document by `ChromaVectorStore.add_documents` and
returned by `search`. -/
structure ChunkMeta where
  loan_type : String
  chunk_index : ℕ
  deriving DecidableEq

/-- Values of the Python dicts crossing the query API. -/
inductive PyVal where
  | str : String → PyVal
  | num : ℚ → PyVal
  | strList : List String → PyVal
  | numList : List ℚ → PyVal
  | metaList : List ChunkMeta → PyVal
  deriving DecidableEq

/-- A Python dict modelled as its ordered key/value list. -/
abbrev PyDict := List (String × PyVal)

/-- Key lookup `d[k]` on the dict model. -/
def dictGet (d : PyDict) (k : String) : Option PyVal :=
  (d.find? (fun p => p.1 == k)).map (fun p => p.2)

/-- The postprocessed result of `ChromaVectorStore.search`. -/
structure SearchResults where
  documents : List String
  distances : List ℚ
  metadatas : List ChunkMeta
  deriving DecidableEq

/-- The raw result of `self.collection.query(...)`: one inner list per
query embedding. -/
structure ChromaRaw where
  documents : List (List String)
  distances : List (List ℚ)
  metadatas : List (List ChunkMeta)

/-- Model of `ChromaVectorStore.search` from `src/rag_pipeline.py`: forwards the
embedding and `k` to the external collection query and unwraps the first
inner list of each field (empty list when the outer list is empty). -/
def ChromaVectorStore.search (collectionQuery : List ℚ → ℤ → ChromaRaw)
    (query_embedding : List ℚ) (k : ℤ) : SearchResults :=
  let results := collectionQuery query_embedding k
  { documents := results.documents.headD []
    distances := results.distances.headD []
    metadatas := results.metadatas.headD [] }

/-- Model of `LLMClient._build_prompt` from `src/rag_pipeline.py`. -/
def LLMClient.build_prompt (question context : String) : String :=
  "Based on the following information about Bank of Maharashtra loan products, provide a detailed and comprehensive answer to the question.\n\nContext Information:\n"
    ++ context
    ++ "\n\nQuestion: " ++ question
    ++ "\n\nInstructions:\n- Provide a detailed answer with specific information from the context\n- Include relevant details such as interest rates, tenure, eligibility, features, and benefits\n- Structure the answer clearly with key points\n- Be specific and informative\n- If multiple loan schemes are relevant, mention them\n\nAnswer: "

/-- Model of `LLMClient.generate_answer` from `src/rag_pipeline.py`.  The OpenAI
chat-completion call is the external collaborator `svc` mapping the built
prompt to either the message content or the exception text; the `try`
block strips the content, the `except` block builds the apology string. -/
def LLMClient.generate_answer (svc : String → Except String String)
    (question context : String) : String :=
  match svc (LLMClient.build_prompt question context) with
  | Except.ok content => strTrim content
  | Except.error e => "I apologize, but I encountered an error: " ++ e

/-- Model of `RAGPipeline._build_context`: numbered source blocks joined by a
newline. -/
def build_context (search_results : SearchResults) : String :=
  String.intercalate "\n"
    (search_results.documents.enum.map
      (fun p => "[Source " ++ toString (p.1 + 1) ++ "]\n" ++ p.2 ++ "\n"))

/-- The `RAGPipeline` object: its collaborators (embedder, Chroma
collection, OpenAI service) as deterministic functions, plus `top_k`. -/
structure RAGPipeline where
  embed_text : String → List ℚ
  collectionQuery : List ℚ → ℤ → ChromaRaw
  llmService : String → Except String String
  top_k : ℤ

/-- Model of `RAGPipeline.query` from `src/rag_pipeline.py`, translated line by
line: embed, search, short-circuit on no documents, otherwise build
context, generate the answer and compose the response dict. -/
def RAGPipeline.query (p : RAGPipeline) (question : String) : PyDict :=
  let query_embedding := p.embed_text question
  let search_results :=
    ChromaVectorStore.search p.collectionQuery query_embedding p.top_k
  if search_results.documents.isEmpty then
    [("question", PyVal.str question),
     ("answer", PyVal.str "I couldn't find relevant information to answer your question."),
     ("sources", PyVal.strList []),
     ("confidence", PyVal.num 0)]
  else
    [("question", PyVal.str question),
     ("answer", PyVal.str (LLMClient.generate_answer p.llmService question
        (build_context search_results))),
     ("sources", PyVal.strList search_results.documents),
     ("metadata", PyVal.metaList search_results.metadatas),
     ("distances", PyVal.numList search_results.distances),
     ("confidence", PyVal.num (calculate_confidence search_results.distances))]

/-- A collection-query result holding one retrieved document, used to
exercise the non-empty search path at concrete inputs. -/
def oneDocRaw : ChromaRaw :=
  { documents := [["Home loan rate is 8.5 percent."]]
    distances := [[(1:ℚ)/4]]
    metadatas := [[{ loan_type := "Home Loan", chunk_index := 0 }]] }

/-- A pipeline whose index returns one document and whose generative
service succeeds. -/
def okPipeline : RAGPipeline :=
  { embed_text := fun _ => [0]
    collectionQuery := fun _ _ => oneDocRaw
    llmService := fun _ => Except.ok "The rate is 8.5 percent."
    top_k := 3 }

/-- A pipeline whose index returns one document and whose generative
service raises. -/
def failPipeline : RAGPipeline :=
  { embed_text := fun _ => [0]
    collectionQuery := fun _ _ => oneDocRaw
    llmService := fun _ => Except.error "service unavailable"
    top_k := 3 }

/-- A pipeline over an empty index: the collection query returns no
inner result lists. -/
def emptyStorePipeline : RAGPipeline :=
  { embed_text := fun _ => [0]
    collectionQuery := fun _ _ => { documents := [], distances := [], metadatas := [] }
    llmService := fun _ => Except.ok "never used"
    top_k := 3 }

/-- A splitter stub returning two pieces, used to evaluate the chunker at
a concrete input. -/
def sampleSplit : String → List String :=
  fun _ => ["home loan info", "personal loan info"]

/-- The flattened keyword vocabulary of the label heuristic, in rule
order. -/
def labelVocabulary : List String :=
  ["home loan", "housing loan", "car loan", "vehicle loan", "personal loan",
   "education loan", "gold loan", "agriculture", "kisan", "msme", "business",
   "interest rate"]

theorem floor_le_roundHalfEven (q : ℚ) : ⌊q⌋ ≤ roundHalfEven q := by
  unfold roundHalfEven
  split_ifs <;> omega

theorem floor_add_one_le_ceil {q : ℚ} (hne : q ≠ (⌊q⌋ : ℚ)) : ⌊q⌋ + 1 ≤ ⌈q⌉ := by
  have h1 : (⌊q⌋ : ℚ) < q := lt_of_le_of_ne (Int.floor_le q) (Ne.symm hne)
  have h2 : ((⌊q⌋ : ℤ) : ℚ) < ((⌈q⌉ : ℤ) : ℚ) := lt_of_lt_of_le h1 (Int.le_ceil q)
  have h3 : (⌊q⌋ : ℤ) < ⌈q⌉ := by exact_mod_cast h2
  omega

theorem roundHalfEven_le_ceil (q : ℚ) : roundHalfEven q ≤ ⌈q⌉ := by
  unfold roundHalfEven
  split_ifs with h1 h2 h3
  · exact Int.floor_le_ceil q
  · have hne : q ≠ (⌊q⌋ : ℚ) := by
      intro h
      rw [h] at h2
      norm_num at h2
    exact floor_add_one_le_ceil hne
  · exact Int.floor_le_ceil q
  · have hr : q - (⌊q⌋ : ℚ) = 1/2 := le_antisymm (not_lt.mp h2) (not_lt.mp h1)
    have hne : q ≠ (⌊q⌋ : ℚ) := by
      intro h
      rw [h] at hr
      norm_num at hr
    exact floor_add_one_le_ceil hne

theorem roundHalfEven_mono {x y : ℚ} (hxy : x ≤ y) :
    roundHalfEven x ≤ roundHalfEven y := by
  have hf : ⌊x⌋ ≤ ⌊y⌋ := Int.floor_le_floor hxy
  rcases lt_or_eq_of_le hf with hlt | heq
  · calc roundHalfEven x ≤ ⌈x⌉ := roundHalfEven_le_ceil x
      _ ≤ ⌊x⌋ + 1 := Int.ceil_le_floor_add_one x
      _ ≤ ⌊y⌋ := by omega
      _ ≤ roundHalfEven y := floor_le_roundHalfEven y
  · have hr : x - (⌊x⌋ : ℚ) ≤ y - (⌊y⌋ : ℚ) := by
      rw [← heq]; linarith
    unfold roundHalfEven
    rw [← heq]
    split_ifs with h1 h2 h3 h4 h5 h6 h7 h8 <;>
      first
      | omega
      | (exfalso; linarith)

theorem decDigitsAux_eq_digits (fuel : ℕ) :
    ∀ n : ℕ, n ≤ fuel → decDigitsAux fuel n = Nat.digits 10 n := by
  induction fuel with
  | zero =>
    intro n hn
    interval_cases n
    simp [decDigitsAux]
  | succ fuel ih =>
    intro n hn
    match n with
    | 0 => simp [decDigitsAux]
    | m + 1 =>
      have hdiv : (m + 1) / 10 ≤ fuel := by
        have h1 : (m + 1) / 10 < m + 1 := Nat.div_lt_self (Nat.succ_pos m) (by norm_num)
        omega
      rw [show decDigitsAux (fuel + 1) (m + 1)
            = (m + 1) % 10 :: decDigitsAux fuel ((m + 1) / 10) from rfl,
        ih _ hdiv, ← Nat.digits_def' (by norm_num : (1:ℕ) < 10) (Nat.succ_pos m)]

theorem decDigits_eq_digits (n : ℕ) : decDigits n = Nat.digits 10 n :=
  decDigitsAux_eq_digits n n le_rfl

theorem padDigits_injective : Function.Injective padDigits := by
  intro m n h
  have hm := congrArg (Nat.ofDigits 10) h
  rw [padDigits, padDigits, decDigits_eq_digits, decDigits_eq_digits,
    Nat.ofDigits_append, Nat.ofDigits_append, Nat.ofDigits_digits,
    Nat.ofDigits_digits] at hm
  have hz : ∀ k : ℕ, Nat.ofDigits 10 (List.replicate k 0) = 0 := by
    intro k
    induction k with
    | zero => simp [Nat.ofDigits]
    | succ k ih => simp [List.replicate_succ, Nat.ofDigits_cons, ih]
  rw [hz, hz] at hm
  simpa using hm

theorem pyRound2_mono {x y : ℚ} (h : x ≤ y) : pyRound2 x ≤ pyRound2 y := by
  unfold pyRound2
  have hm : roundHalfEven (100 * x) ≤ roundHalfEven (100 * y) :=
    roundHalfEven_mono (by linarith)
  have hm' : ((roundHalfEven (100 * x) : ℤ) : ℚ) ≤ ((roundHalfEven (100 * y) : ℤ) : ℚ) := by
    exact_mod_cast hm
  linarith

theorem pyRound2_nonneg {x : ℚ} (h0 : 0 ≤ x) : 0 ≤ pyRound2 x := by
  unfold pyRound2
  have h1 : (0 : ℤ) ≤ ⌊100 * x⌋ := Int.floor_nonneg.mpr (by linarith)
  have h2 : (0 : ℤ) ≤ roundHalfEven (100 * x) := le_trans h1 (floor_le_roundHalfEven _)
  have h3 : (0 : ℚ) ≤ ((roundHalfEven (100 * x) : ℤ) : ℚ) := by exact_mod_cast h2
  linarith

theorem pyRound2_le_one {x : ℚ} (h1 : x ≤ 1) : pyRound2 x ≤ 1 := by
  unfold pyRound2
  have hc : (⌈100 * x⌉ : ℤ) ≤ 100 := Int.ceil_le.mpr (by push_cast; linarith)
  have h2 : roundHalfEven (100 * x) ≤ 100 := le_trans (roundHalfEven_le_ceil _) hc
  have h3 : ((roundHalfEven (100 * x) : ℤ) : ℚ) ≤ 100 := by exact_mod_cast h2
  linarith

theorem calculate_confidence_nonneg (ds : List ℚ) : 0 ≤ calculate_confidence ds := by
  unfold calculate_confidence
  split_ifs with h
  · norm_num
  · exact pyRound2_nonneg (le_max_left 0 _)

theorem calculate_confidence_le_one (ds : List ℚ) : calculate_confidence ds ≤ 1 := by
  unfold calculate_confidence
  split_ifs with h
  · norm_num
  · exact pyRound2_le_one (max_le (by norm_num) (min_le_left 1 _))

theorem digitChar_inj_below_ten :
    ∀ a < 10, ∀ b < 10, Nat.digitChar a = Nat.digitChar b → a = b := by decide

theorem map_digitChar_inj :
    ∀ l1 l2 : List ℕ, (∀ x ∈ l1, x < 10) → (∀ x ∈ l2, x < 10) →
      l1.map Nat.digitChar = l2.map Nat.digitChar → l1 = l2 := by
  intro l1
  induction l1 with
  | nil =>
    intro l2 _ _ h
    cases l2 with
    | nil => rfl
    | cons b t2 => simp at h
  | cons a t ih =>
    intro l2 h1 h2 h
    cases l2 with
    | nil => simp at h
    | cons b t2 =>
      simp only [List.map_cons, List.cons.injEq] at h
      have ha : a = b :=
        digitChar_inj_below_ten a (h1 a (List.mem_cons_self a t)) b
          (h2 b (List.mem_cons_self b t2)) h.1
      have ht : t = t2 :=
        ih t2 (fun x hx => h1 x (List.mem_cons_of_mem a hx))
          (fun x hx => h2 x (List.mem_cons_of_mem b hx)) h.2
      rw [ha, ht]

theorem padDigits_lt_ten (n : ℕ) : ∀ x ∈ padDigits n, x < 10 := by
  intro x hx
  rw [padDigits, decDigits_eq_digits, List.mem_append] at hx
  rcases hx with hx | hx
  · exact Nat.digits_lt_base (by norm_num) hx
  · rw [List.eq_of_mem_replicate hx]; norm_num

theorem chunkId_injective : Function.Injective chunkId := by
  intro m n h
  apply padDigits_injective
  have hdata := congrArg String.data h
  simp only [chunkId, String.data_append] at hdata
  have hmap : (padDigits m).reverse.map Nat.digitChar
      = (padDigits n).reverse.map Nat.digitChar :=
    List.append_cancel_left hdata
  have hrev : (padDigits m).reverse = (padDigits n).reverse :=
    map_digitChar_inj _ _
      (fun x hx => padDigits_lt_ten m x (List.mem_reverse.mp hx))
      (fun x hx => padDigits_lt_ten n x (List.mem_reverse.mp hx)) hmap
  exact List.reverse_injective hrev

theorem calc_conf_of_ne_nil (ds : List ℚ) (hds : ds ≠ []) :
    calculate_confidence ds = pyRound2 (clampQ (1 - listMean ds) 0 1) := by
  simp only [calculate_confidence, List.isEmpty_iff, if_neg hds]
  rfl

/-- C1: the confidence scorer returns 0.0 on an empty distance sequence,
and otherwise clamp(1 - mean(distances), 0.0, 1.0) rounded (half to even)
to two decimal places. -/
theorem confidence_scorer_formula :
    calculate_confidence [] = 0 ∧
      ∀ ds : List ℚ, ds ≠ [] →
        calculate_confidence ds = pyRound2 (clampQ (1 - listMean ds) 0 1) :=
  ⟨rfl, calc_conf_of_ne_nil⟩

/-- Witness for C1 at the one-element sequence [1/2]. -/
theorem confidence_scorer_formula_witness :
    calculate_confidence [(1:ℚ)/2] = pyRound2 (clampQ (1 - listMean [(1:ℚ)/2]) 0 1) :=
  confidence_scorer_formula.2 [(1:ℚ)/2] (by decide)

/-- C4: lower mean distance never lowers the confidence score: for
non-empty sequences of non-negative distances with mean(A) < mean(B),
score(B) ≤ score(A). -/
theorem confidence_monotone (A B : List ℚ) (hA : A ≠ []) (hB : B ≠ [])
    (hAnn : ∀ d ∈ A, 0 ≤ d) (hBnn : ∀ d ∈ B, 0 ≤ d)
    (h : listMean A < listMean B) :
    calculate_confidence B ≤ calculate_confidence A := by
  rw [calc_conf_of_ne_nil A hA, calc_conf_of_ne_nil B hB]
  apply pyRound2_mono
  unfold clampQ
  exact max_le_max le_rfl (min_le_min le_rfl (by linarith))

/-- Witness for C4 at A = [0], B = [1/2]. -/
theorem confidence_monotone_witness :
    calculate_confidence [(1:ℚ)/2] ≤ calculate_confidence [(0:ℚ)] :=
  confidence_monotone [(0:ℚ)] [(1:ℚ)/2] (by decide) (by decide)
    (by intro d hd; simp at hd; simp [hd]) (by intro d hd; simp at hd; simp [hd])
    (by norm_num [listMean])

/-- C2: when the index search returns zero fragments, `query` returns the
fixed no-information response with empty sources and confidence 0.0, and
the result does not depend on the generative service (it is never
invoked). -/
theorem query_empty_search (p : RAGPipeline) (question : String)
    (h : (ChromaVectorStore.search p.collectionQuery (p.embed_text question) p.top_k).documents = []) :
    p.query question =
      [("question", PyVal.str question),
       ("answer", PyVal.str "I couldn't find relevant information to answer your question."),
       ("sources", PyVal.strList []),
       ("confidence", PyVal.num 0)] ∧
    ∀ svc : String → Except String String,
      RAGPipeline.query { p with llmService := svc } question = p.query question := by
  constructor
  · simp [RAGPipeline.query, h, List.isEmpty_iff]
  · intro svc
    simp [RAGPipeline.query, h, List.isEmpty_iff]

/-- Witness for C2: a pipeline over an empty index. -/
theorem query_empty_search_witness :
    emptyStorePipeline.query "What is the interest rate?" =
      [("question", PyVal.str "What is the interest rate?"),
       ("answer", PyVal.str "I couldn't find relevant information to answer your question."),
       ("sources", PyVal.strList []),
       ("confidence", PyVal.num 0)] :=
  (query_empty_search emptyStorePipeline "What is the interest rate?" rfl).1

/-- C3: when the search returns fragments but the generative service
fails, `query` still returns a response whose sources are exactly the
retrieved fragment texts in search order and whose confidence is computed
from the search distances, with the answer replaced by the apologetic
failure message; no exception reaches the caller. -/
theorem query_generation_failure (p : RAGPipeline) (question e : String)
    (sr : SearchResults)
    (hs : ChromaVectorStore.search p.collectionQuery (p.embed_text question) p.top_k = sr)
    (hdocs : sr.documents ≠ [])
    (hsvc : p.llmService (LLMClient.build_prompt question (build_context sr)) = Except.error e) :
    dictGet (p.query question) "sources" = some (PyVal.strList sr.documents) ∧
    dictGet (p.query question) "confidence" =
      some (PyVal.num (calculate_confidence sr.distances)) ∧
    dictGet (p.query question) "answer" =
      some (PyVal.str ("I apologize, but I encountered an error: " ++ e)) := by
  simp [RAGPipeline.query, hs, hdocs, List.isEmpty_iff, dictGet, List.find?,
    LLMClient.generate_answer, hsvc]

/-- Witness for C3: a pipeline whose service raises on a one-document
index. -/
theorem query_generation_failure_witness :
    dictGet (failPipeline.query "q") "sources" =
      some (PyVal.strList ["Home loan rate is 8.5 percent."]) ∧
    dictGet (failPipeline.query "q") "confidence" =
      some (PyVal.num (calculate_confidence [(1:ℚ)/4])) ∧
    dictGet (failPipeline.query "q") "answer" =
      some (PyVal.str ("I apologize, but I encountered an error: " ++ "service unavailable")) :=
  query_generation_failure failPipeline "q" "service unavailable"
    ⟨["Home loan rate is 8.5 percent."], [(1:ℚ)/4],
      [{ loan_type := "Home Loan", chunk_index := 0 }]⟩
    rfl (by decide) rfl

/-- C5: with the embedder and the index as fixed deterministic functions,
the sources and confidence of a query response do not depend on the
generative service, so two invocations on the same question agree on
both. -/
theorem query_sources_confidence_deterministic
    (embed : String → List ℚ) (cq : List ℚ → ℤ → ChromaRaw)
    (svc1 svc2 : String → Except String String) (k : ℤ) (question : String) :
    dictGet (RAGPipeline.query ⟨embed, cq, svc1, k⟩ question) "sources" =
      dictGet (RAGPipeline.query ⟨embed, cq, svc2, k⟩ question) "sources" ∧
    dictGet (RAGPipeline.query ⟨embed, cq, svc1, k⟩ question) "confidence" =
      dictGet (RAGPipeline.query ⟨embed, cq, svc2, k⟩ question) "confidence" := by
  cases hemp : (ChromaVectorStore.search cq (embed question) k).documents.isEmpty <;>
    simp [RAGPipeline.query, hemp, dictGet, List.find?]

/-- C10: `generate_answer` is total on the caller's side: a failing
service call yields the string "I apologize, but I encountered an error: "
followed by the exception message, and a successful call yields the
stripped content. -/
theorem generate_answer_total (svc : String → Except String String)
    (question context : String) :
    (∀ e, svc (LLMClient.build_prompt question context) = Except.error e →
      LLMClient.generate_answer svc question context =
        "I apologize, but I encountered an error: " ++ e) ∧
    (∀ a, svc (LLMClient.build_prompt question context) = Except.ok a →
      LLMClient.generate_answer svc question context = strTrim a) := by
  constructor
  · intro e he
    simp [LLMClient.generate_answer, he]
  · intro a ha
    simp [LLMClient.generate_answer, ha]

/-- Witness for C10: a service that always raises "boom". -/
theorem generate_answer_total_witness :
    LLMClient.generate_answer (fun _ => Except.error "boom") "q" "ctx" =
      "I apologize, but I encountered an error: " ++ "boom" :=
  (generate_answer_total (fun _ => Except.error "boom") "q" "ctx").1 "boom" rfl

/-- Counterexample to C6: on a non-empty search result the response dict
carries six keys — `metadata` and `distances` on top of the four the
claim allows — so it does not consist of exactly
question/answer/sources/confidence. -/
theorem query_response_extra_fields_cex :
    (okPipeline.query "What is the home loan interest rate?").map Prod.fst =
      ["question", "answer", "sources", "metadata", "distances", "confidence"] ∧
    (okPipeline.query "What is the home loan interest rate?").map Prod.fst ≠
      ["question", "answer", "sources", "confidence"] := by
  constructor
  · rfl
  · decide

/-- C6 amended: every query response contains the fields question (the
question string), answer (a string), sources (a string sequence) and
confidence (a rational in [0,1]); on the empty-search path these are
exactly the keys, and on the non-empty path the response additionally
carries metadata and distances. -/
theorem query_response_shape (p : RAGPipeline) (question : String) :
    dictGet (p.query question) "question" = some (PyVal.str question) ∧
    (∃ a : String, dictGet (p.query question) "answer" = some (PyVal.str a)) ∧
    (∃ ds : List String, dictGet (p.query question) "sources" = some (PyVal.strList ds)) ∧
    (∃ c : ℚ, dictGet (p.query question) "confidence" = some (PyVal.num c) ∧
      0 ≤ c ∧ c ≤ 1) ∧
    ((p.query question).map Prod.fst = ["question", "answer", "sources", "confidence"] ∨
      (p.query question).map Prod.fst =
        ["question", "answer", "sources", "metadata", "distances", "confidence"]) := by
  cases hemp : (ChromaVectorStore.search p.collectionQuery (p.embed_text question) p.top_k).documents.isEmpty with
  | false =>
    simp [RAGPipeline.query, hemp, dictGet, List.find?]
    exact ⟨calculate_confidence_nonneg _, calculate_confidence_le_one _⟩
  | true => simp [RAGPipeline.query, hemp, dictGet, List.find?]

/-- Counterexample to C7: an empty question is not rejected — it flows
through embedding, search and the generative service, whose output comes
back as the answer of a normal response. -/
theorem empty_question_not_rejected_cex :
    dictGet (okPipeline.query "") "question" = some (PyVal.str "") ∧
    dictGet (okPipeline.query "") "answer" =
      some (PyVal.str "The rate is 8.5 percent.") ∧
    dictGet (okPipeline.query "") "sources" =
      some (PyVal.strList ["Home loan rate is 8.5 percent."]) := by
  refine ⟨rfl, ?_, rfl⟩
  decide

/-- C7 amended: the code performs no argument validation: an empty
question is embedded, searched and answered like any other question, and
index search forwards any integer k (non-positive included) straight to
the underlying collection query. -/
theorem query_no_validation (p : RAGPipeline) (sr : SearchResults)
    (hs : ChromaVectorStore.search p.collectionQuery (p.embed_text "") p.top_k = sr)
    (hdocs : sr.documents ≠ []) :
    dictGet (p.query "") "question" = some (PyVal.str "") ∧
    dictGet (p.query "") "answer" =
      some (PyVal.str (LLMClient.generate_answer p.llmService "" (build_context sr))) ∧
    ∀ (cq : List ℚ → ℤ → ChromaRaw) (emb : List ℚ) (k : ℤ),
      ChromaVectorStore.search cq emb k =
        { documents := (cq emb k).documents.headD []
          distances := (cq emb k).distances.headD []
          metadatas := (cq emb k).metadatas.headD [] } := by
  refine ⟨?_, ?_, fun cq emb k => rfl⟩
  · simp [RAGPipeline.query, hs, hdocs, List.isEmpty_iff, dictGet, List.find?]
  · simp [RAGPipeline.query, hs, hdocs, List.isEmpty_iff, dictGet, List.find?]

/-- Witness for the amended C7 at a concrete one-document pipeline. -/
theorem query_no_validation_witness :
    dictGet (okPipeline.query "") "question" = some (PyVal.str "") ∧
    dictGet (okPipeline.query "") "answer" =
      some (PyVal.str (LLMClient.generate_answer okPipeline.llmService ""
        (build_context ⟨["Home loan rate is 8.5 percent."], [(1:ℚ)/4],
          [{ loan_type := "Home Loan", chunk_index := 0 }]⟩))) :=
  ⟨(query_no_validation okPipeline
      ⟨["Home loan rate is 8.5 percent."], [(1:ℚ)/4],
        [{ loan_type := "Home Loan", chunk_index := 0 }]⟩ rfl (by decide)).1,
   (query_no_validation okPipeline
      ⟨["Home loan rate is 8.5 percent."], [(1:ℚ)/4],
        [{ loan_type := "Home Loan", chunk_index := 0 }]⟩ rfl (by decide)).2.1⟩

/-- C8: the label heuristic equals first-match-wins evaluation of the
fixed ordered rule list on the lowercased text; a fragment containing
"home loan" (case-insensitively) is labeled "Home Loan", and a fragment
containing no vocabulary keyword is labeled "General". -/
theorem label_inference (chunk : String) :
    extract_loan_type_from_chunk chunk = firstLabel (strToLower chunk) labelRules ∧
    (strContains (strToLower chunk) "home loan" = true →
      extract_loan_type_from_chunk chunk = "Home Loan") ∧
    ((∀ kw ∈ labelVocabulary, strContains (strToLower chunk) kw = false) →
      extract_loan_type_from_chunk chunk = "General") := by
  refine ⟨?_, ?_, ?_⟩
  · simp [extract_loan_type_from_chunk, firstLabel, labelRules]
  · intro h
    simp [extract_loan_type_from_chunk, h]
  · intro h
    simp only [labelVocabulary, List.forall_mem_cons, List.forall_mem_nil] at h
    obtain ⟨h1, h2, h3, h4, h5, h6, h7, h8, h9, h10, h11, h12, -⟩ := h
    simp [extract_loan_type_from_chunk, h1, h2, h3, h4, h5, h6, h7, h8, h9,
      h10, h11, h12]

/-- Witness for C8: an uppercase home-loan fragment and a no-keyword
fragment. -/
theorem label_inference_witness :
    extract_loan_type_from_chunk "Ask about HOME LOAN rates" = "Home Loan" ∧
    extract_loan_type_from_chunk "hello" = "General" :=
  ⟨(label_inference "Ask about HOME LOAN rates").2.1 (by decide),
   (label_inference "hello").2.2 (by decide)⟩

/-- C9: every fragment of one chunker build has
0 <= chunk_index < total_chunks with total_chunks the number of produced
fragments, and the chunk_id values are pairwise distinct. -/
theorem chunk_invariants (split_text : String → List String) (text : String) :
    (∀ c ∈ TextChunker.chunk_text split_text text,
        c.chunk_index < c.total_chunks ∧
        c.total_chunks = (TextChunker.chunk_text split_text text).length) ∧
    ((TextChunker.chunk_text split_text text).map Chunk.chunk_id).Nodup := by
  constructor
  · intro c hc
    simp only [TextChunker.chunk_text, List.mem_map] at hc
    obtain ⟨p, hp, rfl⟩ := hc
    have hlt : p.1 < (split_text text).length := by
      rw [List.mem_enum_iff_getElem?] at hp
      exact (List.getElem?_eq_some.mp hp).1
    constructor
    · simpa using hlt
    · simp [TextChunker.chunk_text]
  · have hids : (TextChunker.chunk_text split_text text).map Chunk.chunk_id
        = ((split_text text).enum.map Prod.fst).map chunkId := by
      simp only [TextChunker.chunk_text, List.map_map]
      rfl
    rw [hids]
    exact List.Nodup.map chunkId_injective (List.nodup_enum_map_fst (split_text text))

/-- Witness for C9: the first fragment of a two-piece build. -/
theorem chunk_invariants_witness :
    (⟨"chunk_0000", "home loan info", "Home Loan", 0, 2⟩ : Chunk).chunk_index <
        (⟨"chunk_0000", "home loan info", "Home Loan", 0, 2⟩ : Chunk).total_chunks ∧
    (⟨"chunk_0000", "home loan info", "Home Loan", 0, 2⟩ : Chunk).total_chunks =
        (TextChunker.chunk_text sampleSplit "x").length :=
  (chunk_invariants sampleSplit "x").1
    ⟨"chunk_0000", "home loan info", "Home Loan", 0, 2⟩ (by decide)
